import Mathlib

/-!
# Verification of `examples/external-processing/main.py` (kklingenberg/cdp)

Shallow embedding of the small FastAPI calculator application:

* process startup resolves a function name (from the `EXPR` environment
  variable) against Python's `math` module and asserts arity one;
* `calculate_iter` lazily maps the configured function over a list of
  input records, skipping (with a printed diagnostic) records whose
  computation raises `ValueError`, and letting any other exception
  propagate;
* the `POST /calculate` endpoint streams each resulting record as a
  compact JSON object followed by a newline.

Python floats are modelled as `Rat`; the claims proved here only depend
on exactly representable values (small integers and their square roots),
where IEEE-754 arithmetic agrees with exact arithmetic.  Exceptions are
modelled with `Except`, distinguishing `ValueError` (the class caught by
`calculate_iter`) from every other exception class.
-/

namespace ExternalProcessing

/-- An input record, mirroring the pydantic model `Value` with its single
float field `x` (`class Value(BaseModel): x: float`). -/
structure Value where
  x : Rat
deriving Repr, DecidableEq

/-- Model of `value.dict()` on the pydantic model: the record as a key/value map
with the single entry `"x"`. -/
def Value.dict (v : Value) : List (String × Rat) :=
  [("x", v.x)]

/-- A Python exception raised by evaluating the configured math function:
either `ValueError` (the domain-error class that `calculate_iter`
catches) or an exception of any other class, identified by its class
name (e.g. `"OverflowError"`). -/
inductive CalcError where
  | valueError
  | other (className : String)
deriving Repr, DecidableEq

/-- A configured one-argument math function: on a float argument it
either returns a float or raises an exception. -/
abbrev MathFn := Rat → Except CalcError Rat

/-- Holds (as `true`) when evaluating the function at `r` did not raise an
exception of a class other than `ValueError` (i.e. the iteration in
`calculate_iter` gets past this record). -/
def survives (r : Except CalcError Rat) : Bool :=
  match r with
  | .error (.other _) => false
  | _ => true

/-- Python dict update `{**base, k: r}`: if `k` is already a key of
`base` its value is replaced in place (insertion order kept), otherwise
the pair `(k, r)` is appended at the end. -/
def pyDictMerge (base : List (String × Rat)) (k : String) (r : Rat) :
    List (String × Rat) :=
  if base.any (fun p => p.1 == k) then
    base.map (fun p => if p.1 == k then (p.1, r) else p)
  else
    base ++ [(k, r)]

/-- The record yielded for a successful computation, from line 38 of the
source: `{**value.dict(), expression: fn(value.x)}`. -/
def mkOutput (expression : String) (v : Value) (y : Rat) :
    List (String × Rat) :=
  pyDictMerge v.dict expression y

/-- The diagnostic printed for a skipped record, from line 40 of the
source: `print(f"Value is not a valid input for {expression}(x)",
value.x)` (Python's `print` joins its arguments with a space). -/
def diagMessage (expression : String) (x : Rat) : String :=
  s!"Value is not a valid input for {expression}(x) {x}"

/-- The observable result of running the generator `calculate_iter` to
exhaustion (or until an uncaught exception): the records it yielded, the
diagnostics it printed, and the uncaught exception, if any, that
propagated out of it. -/
structure CalcResult where
  outputs : List (List (String × Rat))
  diagnostics : List String
  aborted : Option CalcError
deriving Repr, DecidableEq

/-- The generator `calculate_iter` (source lines 34–40): for each value
in order, try `yield {**value.dict(), expression: fn(value.x)}`; on
`ValueError` print a diagnostic and continue; any other exception
propagates, ending the iteration. -/
def calculate_iter (fn : MathFn) (expression : String) :
    List Value → CalcResult
  | [] => ⟨[], [], none⟩
  | v :: vs =>
    match fn v.x with
    | .ok y =>
      let r := calculate_iter fn expression vs
      ⟨mkOutput expression v y :: r.outputs, r.diagnostics, r.aborted⟩
    | .error .valueError =>
      let r := calculate_iter fn expression vs
      ⟨r.outputs, diagMessage expression v.x :: r.diagnostics, r.aborted⟩
    | .error (.other c) => ⟨[], [], some (.other c)⟩

/-- An attribute of Python's `math` module: a built-in function with the
given number of signature parameters, or a non-callable constant. -/
inductive PyAttr where
  | func (arity : Nat)
  | const
deriving Repr, DecidableEq

/-- Model of the attributes of CPython's `math` module that the startup
code interrogates (`getattr(math, expression)` and
`len(inspect.signature(fn).parameters)`): a representative table of its
unary functions, binary functions and non-callable constants; names not
in the table are absent from the module (`getattr` raises
`AttributeError`). -/
def mathAttrs : String → Option PyAttr
  | "sqrt" => some (.func 1)
  | "cbrt" => some (.func 1)
  | "sin" => some (.func 1)
  | "cos" => some (.func 1)
  | "tan" => some (.func 1)
  | "asin" => some (.func 1)
  | "acos" => some (.func 1)
  | "atan" => some (.func 1)
  | "exp" => some (.func 1)
  | "expm1" => some (.func 1)
  | "log2" => some (.func 1)
  | "log10" => some (.func 1)
  | "log1p" => some (.func 1)
  | "fabs" => some (.func 1)
  | "floor" => some (.func 1)
  | "ceil" => some (.func 1)
  | "trunc" => some (.func 1)
  | "gamma" => some (.func 1)
  | "lgamma" => some (.func 1)
  | "erf" => some (.func 1)
  | "erfc" => some (.func 1)
  | "pow" => some (.func 2)
  | "atan2" => some (.func 2)
  | "fmod" => some (.func 2)
  | "copysign" => some (.func 2)
  | "ldexp" => some (.func 2)
  | "remainder" => some (.func 2)
  | "pi" => some .const
  | "e" => some .const
  | "tau" => some .const
  | "inf" => some .const
  | "nan" => some .const
  | _ => none

/-- The exception that aborts process startup (module import), per the
startup code at source lines 21–25. -/
inductive StartupError where
  /-- Raised when `os.getenv("EXPR")` returned `None`, so that
  `getattr(math, None)` raises `TypeError`. -/
  | typeErrorNoneName
  /-- Raised by `getattr(math, expression)` as `AttributeError`: no such
  attribute in the `math` module. -/
  | attributeError
  /-- Raised by `inspect.signature(fn)` as `TypeError` because the
  attribute is not callable (e.g. `math.pi`). -/
  | typeErrorSignature
  /-- The `assert` fails: the function's signature does not have exactly
  one parameter. -/
  | assertionError
deriving Repr, DecidableEq

/-- The process-wide binding established by a successful startup. -/
structure Config where
  expression : String
  arity : Nat
deriving Repr, DecidableEq

/-- Process startup (source lines 21–25): read `EXPR`, resolve it
against the `math` module, and assert that the resolved function's
signature has exactly one parameter.  The argument is the value of
`os.getenv("EXPR")` (`none` when the variable is absent). -/
def startup : Option String → Except StartupError Config
  | none => .error .typeErrorNoneName
  | some s =>
    match mathAttrs s with
    | none => .error .attributeError
    | some .const => .error .typeErrorSignature
    | some (.func a) =>
      if a = 1 then .ok ⟨s, a⟩ else .error .assertionError

/-- Holds (as `true`) exactly when startup runs to completion and the process
begins serving requests. -/
def startupSucceeds (s : Option String) : Bool :=
  match startup s with
  | .ok _ => true
  | .error _ => false

/-- Integer square root by downward search (kernel-reducible):
`isqrtLin n k` is the largest `m ≤ k` with `m * m ≤ n`. -/
def isqrtLin : Nat → Nat → Nat
  | _, 0 => 0
  | n, k + 1 => if (k + 1) * (k + 1) ≤ n then k + 1 else isqrtLin n k

/-- Integer square root: the largest `m` with `m * m ≤ n`. -/
def isqrt (n : Nat) : Nat :=
  isqrtLin n n

/-- Exact square root of a rational, used to model `math.sqrt` on
inputs whose square root is exactly representable. -/
def ratSqrt (q : Rat) : Rat :=
  if q.den = 1 then ((isqrt q.num.toNat : Int) : Rat)
  else (isqrt q.num.toNat : Rat) / (isqrt q.den : Rat)

/-- Model of `math.sqrt`: raises `ValueError: math domain error` exactly
on negative arguments, and returns the square root otherwise.  On
perfect squares (the only inputs whose value the claims mention) the
IEEE-754 result is exact and agrees with `ratSqrt`. -/
def math_sqrt : MathFn := fun x =>
  if x < 0 then .error .valueError else .ok (ratSqrt x)

/-- Python's `repr` of a float, as used by `json.dumps`, restricted to
the values the claims mention: a float holding an integer prints as the
integer followed by `.0`.  (Non-integral values never arise in the
verified scenarios; for them this fallback prints the exact rational.) -/
def renderFloat (q : Rat) : String :=
  if q.den = 1 then toString q.num ++ ".0" else toString q

/-- Model of `json.dumps(result, separators=(",", ":"))`: the compact JSON
serialization of a record, keys in insertion order. -/
def jsonDumps (record : List (String × Rat)) : String :=
  "\x7b"
    ++ String.intercalate ","
      (record.map (fun p => "\"" ++ p.1 ++ "\":" ++ renderFloat p.2))
    ++ "\x7d"

/-- The streamed HTTP response, as constructed by `StreamingResponse` at
source lines 45–48: the body chunks actually produced, together with the
response metadata.  The source passes only the content generator, so
`mediaType` takes Starlette's default `None` (no `Content-Type` header
is set) and `statusCode` takes Starlette's default `200`.  `raised`
records an exception propagating out of the generator, which terminates
the stream. -/
structure StreamingResponse where
  body : List String
  mediaType : Option String
  statusCode : Nat
  raised : Option CalcError
deriving Repr, DecidableEq

/-- The `POST /calculate` endpoint (source lines 43–48): stream
`json.dumps(result, separators=(",", ":")) + "\n"` for each record
yielded by `calculate_iter(values)`. -/
def calculate (fn : MathFn) (expression : String) (values : List Value) :
    StreamingResponse :=
  let r := calculate_iter fn expression values
  { body := r.outputs.map (fun o => jsonDumps o ++ "\n")
  , mediaType := none
  , statusCode := 200
  , raised := r.aborted }

/-! ## Theorems -/

instance {ε α : Type} [DecidableEq ε] [DecidableEq α] :
    DecidableEq (Except ε α) := fun x y =>
  match x, y with
  | .ok a, .ok b =>
    if h : a = b then .isTrue (by rw [h])
    else .isFalse (fun hc => h (Except.ok.inj hc))
  | .error a, .error b =>
    if h : a = b then .isTrue (by rw [h])
    else .isFalse (fun hc => h (Except.error.inj hc))
  | .ok _, .error _ => .isFalse (fun hc => Except.noConfusion hc)
  | .error _, .ok _ => .isFalse (fun hc => Except.noConfusion hc)

/-- Unfolding `calculate_iter` over a record whose computation
succeeds. -/
theorem calculate_iter_cons_ok (fn : MathFn) (expression : String)
    (v : Value) (vs : List Value) (y : Rat) (h : fn v.x = .ok y) :
    calculate_iter fn expression (v :: vs) =
      ⟨mkOutput expression v y :: (calculate_iter fn expression vs).outputs,
       (calculate_iter fn expression vs).diagnostics,
       (calculate_iter fn expression vs).aborted⟩ := by
  simp [calculate_iter, h]

/-- Unfolding `calculate_iter` over a record whose computation raises
`ValueError`. -/
theorem calculate_iter_cons_valueError (fn : MathFn) (expression : String)
    (v : Value) (vs : List Value) (h : fn v.x = .error .valueError) :
    calculate_iter fn expression (v :: vs) =
      ⟨(calculate_iter fn expression vs).outputs,
       diagMessage expression v.x ::
         (calculate_iter fn expression vs).diagnostics,
       (calculate_iter fn expression vs).aborted⟩ := by
  simp [calculate_iter, h]

/-- Unfolding `calculate_iter` over a record whose computation raises an
exception of a class other than `ValueError`. -/
theorem calculate_iter_cons_other (fn : MathFn) (expression : String)
    (v : Value) (vs : List Value) (c : String)
    (h : fn v.x = .error (.other c)) :
    calculate_iter fn expression (v :: vs) = ⟨[], [], some (.other c)⟩ := by
  simp [calculate_iter, h]

/-- C1: with every input either succeeding or raising a domain error
(`ValueError`), the generator emits exactly the in-domain records'
outputs, in input order; domain-error inputs contribute nothing. -/
theorem calculate_iter_in_domain_outputs (fn : MathFn) (expression : String)
    (values : List Value)
    (h : (values.all fun v => survives (fn v.x)) = true) :
    (calculate_iter fn expression values).outputs =
      values.filterMap (fun v =>
        match fn v.x with
        | .ok y => some (mkOutput expression v y)
        | .error _ => none) := by
  induction values with
  | nil => rfl
  | cons v vs ih =>
    rw [List.all_cons, Bool.and_eq_true] at h
    obtain ⟨hv, hvs⟩ := h
    rcases hfv : fn v.x with e | y
    · cases e with
      | valueError =>
        rw [calculate_iter_cons_valueError fn expression v vs hfv]
        simp [List.filterMap_cons, hfv, ih hvs]
      | other c =>
        rw [hfv] at hv
        simp [survives] at hv
    · rw [calculate_iter_cons_ok fn expression v vs y hfv]
      simp [List.filterMap_cons, hfv, ih hvs]

theorem calculate_iter_in_domain_outputs_witness :
    (([⟨4⟩, ⟨-1⟩, ⟨9⟩] : List Value).all fun v => survives (math_sqrt v.x)) = true
    ∧ (calculate_iter math_sqrt "sqrt" [⟨4⟩, ⟨-1⟩, ⟨9⟩]).outputs =
        ([⟨4⟩, ⟨-1⟩, ⟨9⟩] : List Value).filterMap (fun v =>
          match math_sqrt v.x with
          | .ok y => some (mkOutput "sqrt" v y)
          | .error _ => none) :=
  ⟨by decide, calculate_iter_in_domain_outputs math_sqrt "sqrt" _ (by decide)⟩

/-- C2: the generator prints exactly one diagnostic (containing the
offending value) per `ValueError` input and omits that record, yields
the successful records, both only up to the first input raising an
exception of another class, and an exception of another class
propagates out (aborting the iteration) exactly when such an input
exists. -/
theorem calculate_iter_error_policy (fn : MathFn) (expression : String)
    (values : List Value) :
    (calculate_iter fn expression values).diagnostics =
      (values.takeWhile fun v => survives (fn v.x)).filterMap (fun v =>
        match fn v.x with
        | .error .valueError => some (diagMessage expression v.x)
        | _ => none)
    ∧ (calculate_iter fn expression values).outputs =
      (values.takeWhile fun v => survives (fn v.x)).filterMap (fun v =>
        match fn v.x with
        | .ok y => some (mkOutput expression v y)
        | .error _ => none)
    ∧ ((calculate_iter fn expression values).aborted ≠ none ↔
        ∃ v ∈ values, ∃ c, fn v.x = .error (.other c)) := by
  induction values with
  | nil => simp [calculate_iter]
  | cons v vs ih =>
    obtain ⟨ihd, iho, iha⟩ := ih
    rcases hfv : fn v.x with e | y
    · cases e with
      | valueError =>
        have hs : survives (fn v.x) = true := by rw [hfv]; rfl
        rw [calculate_iter_cons_valueError fn expression v vs hfv]
        refine ⟨?_, ?_, ?_⟩
        · simp [survives, List.takeWhile_cons, hs, List.filterMap_cons, hfv, ihd]
        · simp [survives, List.takeWhile_cons, hs, List.filterMap_cons, hfv, iho]
        · show (calculate_iter fn expression vs).aborted ≠ none ↔ _
          rw [iha]
          constructor
          · rintro ⟨u, hu, hc⟩
            exact ⟨u, List.mem_cons_of_mem v hu, hc⟩
          · rintro ⟨u, hu, c', hc⟩
            rcases List.mem_cons.mp hu with rfl | hu'
            · rw [hfv] at hc
              exact CalcError.noConfusion (Except.error.inj hc)
            · exact ⟨u, hu', c', hc⟩
      | other c =>
        have hs : survives (fn v.x) = false := by rw [hfv]; rfl
        rw [calculate_iter_cons_other fn expression v vs c hfv]
        refine ⟨?_, ?_, ?_⟩
        · simp [survives, List.takeWhile_cons, hfv]
        · simp [survives, List.takeWhile_cons, hfv]
        · constructor
          · intro _
            exact ⟨v, List.mem_cons_self v vs, c, hfv⟩
          · intro _
            simp
    · have hs : survives (fn v.x) = true := by rw [hfv]; rfl
      rw [calculate_iter_cons_ok fn expression v vs y hfv]
      refine ⟨?_, ?_, ?_⟩
      · simp [survives, List.takeWhile_cons, hs, List.filterMap_cons, hfv, ihd]
      · simp [survives, List.takeWhile_cons, hs, List.filterMap_cons, hfv, iho]
      · show (calculate_iter fn expression vs).aborted ≠ none ↔ _
        rw [iha]
        constructor
        · rintro ⟨u, hu, hc⟩
          exact ⟨u, List.mem_cons_of_mem v hu, hc⟩
        · rintro ⟨u, hu, c', hc⟩
          rcases List.mem_cons.mp hu with rfl | hu'
          · rw [hfv] at hc
            exact Except.noConfusion hc
          · exact ⟨u, hu', c', hc⟩

/-- C3: startup succeeds exactly when the configuration names an
attribute of the math module that is a function of arity one; an absent
variable, an unknown name, a non-callable attribute and a wrong arity
all fail before any request is served. -/
theorem startup_iff_unary_math_function (s : Option String) :
    startupSucceeds s = true ↔
      ∃ name, s = some name ∧ mathAttrs name = some (.func 1) := by
  constructor
  · intro h
    cases s with
    | none => simp [startupSucceeds, startup] at h
    | some nm =>
      refine ⟨nm, rfl, ?_⟩
      cases hm : mathAttrs nm with
      | none => simp [startupSucceeds, startup, hm] at h
      | some attr =>
        cases attr with
        | const => simp [startupSucceeds, startup, hm] at h
        | func a =>
          by_cases ha : a = 1
          · rw [ha]
          · simp [startupSucceeds, startup, hm, ha] at h
  · rintro ⟨nm, rfl, hm⟩
    simp [startupSucceeds, startup, hm]

/-- Helper: a name accepted at startup is an attribute of the math
module, hence is not the string `"x"`, so the dict update cannot clash
with the input field. -/
theorem startup_ok_ne_x {expression : String} {c : Config}
    (h : startup (some expression) = .ok c) : expression ≠ "x" := by
  intro he
  subst he
  have hx : startup (some "x") = .error .attributeError := rfl
  rw [hx] at h
  exact Except.noConfusion h

/-- C4: a successfully computed record is emitted as the input record's
fields unchanged followed by exactly one extra field keyed by the
configured name and holding the computed value; in particular the
output's `"x"` entry is exactly the input's `x`. -/
theorem output_record_extends_input (expression : String) (c : Config)
    (h : startup (some expression) = .ok c) (fn : MathFn) (v : Value)
    (vs : List Value) (y : Rat) (hy : fn v.x = .ok y) :
    (calculate_iter fn expression (v :: vs)).outputs.head? =
      some (v.dict ++ [(expression, y)])
    ∧ (v.dict ++ [(expression, y)]).lookup "x" = some v.x := by
  have hx : expression ≠ "x" := startup_ok_ne_x h
  have hbeq : (("x" : String) == expression) = false := by
    rw [beq_eq_false_iff_ne]
    exact fun he => hx he.symm
  have hmerge : mkOutput expression v y = v.dict ++ [(expression, y)] := by
    simp [mkOutput, pyDictMerge, Value.dict, hbeq]
  constructor
  · simp [calculate_iter, hy, hmerge]
  · simp [Value.dict, List.lookup]

theorem output_record_extends_input_witness :
    startup (some "sqrt") = .ok ⟨"sqrt", 1⟩
    ∧ math_sqrt ((⟨4⟩ : Value).x) = .ok 2
    ∧ ((calculate_iter math_sqrt "sqrt" [⟨4⟩]).outputs.head? =
         some (Value.dict ⟨4⟩ ++ [("sqrt", 2)])
       ∧ (Value.dict ⟨4⟩ ++ [("sqrt", (2 : Rat))]).lookup "x" =
         some ((⟨4⟩ : Value).x)) :=
  ⟨rfl, rfl,
    output_record_extends_input "sqrt" ⟨"sqrt", 1⟩ rfl math_sqrt ⟨4⟩ [] 2 rfl⟩

/-- C5: the generator never yields more records than it was given. -/
theorem outputs_length_le_values_length (fn : MathFn) (expression : String)
    (values : List Value) :
    (calculate_iter fn expression values).outputs.length ≤ values.length := by
  induction values with
  | nil => simp [calculate_iter]
  | cons v vs ih =>
    rcases hfv : fn v.x with e | y
    · cases e with
      | valueError =>
        rw [calculate_iter_cons_valueError fn expression v vs hfv]
        exact Nat.le_succ_of_le ih
      | other c =>
        rw [calculate_iter_cons_other fn expression v vs c hfv]
        simp
    · rw [calculate_iter_cons_ok fn expression v vs y hfv]
      simpa using Nat.succ_le_succ ih

/-- C6: with `EXPR=sqrt`, the batch `[{"x": 4}, {"x": -1}, {"x": 9}]`
streams exactly the two lines for 4 and 9, the middle record dropped. -/
theorem scenario_sqrt_batch :
    (calculate math_sqrt "sqrt" [⟨4⟩, ⟨-1⟩, ⟨9⟩]).body =
      ["\x7b\"x\":4.0,\"sqrt\":2.0\x7d\n", "\x7b\"x\":9.0,\"sqrt\":3.0\x7d\n"] := by
  decide

/-- C7 (counterexample): the endpoint passes no `media_type` to
`StreamingResponse`, so the response declares no content type at all —
in particular not the newline-delimited-JSON one. -/
theorem calculate_declares_no_content_type :
    (calculate math_sqrt "sqrt" [⟨4⟩]).mediaType = none
    ∧ (calculate math_sqrt "sqrt" [⟨4⟩]).mediaType ≠
        some "application/x-ndjson" := by
  exact ⟨rfl, by simp [calculate]⟩

/-- C7 (amended): every output record is serialized as its compact JSON
object followed by a newline, but the response sets no content type. -/
theorem calculate_body_serialization (fn : MathFn) (expression : String)
    (values : List Value) :
    (calculate fn expression values).body =
      (calculate_iter fn expression values).outputs.map
        (fun o => jsonDumps o ++ "\n")
    ∧ (calculate fn expression values).mediaType = none :=
  ⟨rfl, rfl⟩

/-- C8: the empty batch yields an empty response body with the default
status code 200. -/
theorem empty_input_empty_body (fn : MathFn) (expression : String) :
    (calculate fn expression []).body = []
    ∧ (calculate fn expression []).statusCode = 200 :=
  ⟨rfl, rfl⟩

/-- C9: `ValueError` is exactly the skippable class: a record whose
computation raises `ValueError` is dropped with one diagnostic and
iteration continues, while an exception of any other class yields
nothing, prints nothing, and propagates out, aborting the batch. -/
theorem only_value_error_is_skipped (fn : MathFn) (expression : String)
    (v : Value) (vs : List Value) (e : CalcError)
    (h : fn v.x = .error e) :
    (e = .valueError →
      calculate_iter fn expression (v :: vs) =
        ⟨(calculate_iter fn expression vs).outputs,
         diagMessage expression v.x ::
           (calculate_iter fn expression vs).diagnostics,
         (calculate_iter fn expression vs).aborted⟩)
    ∧ (e ≠ .valueError →
        calculate_iter fn expression (v :: vs) = ⟨[], [], some e⟩) := by
  constructor
  · rintro rfl
    simp [calculate_iter, h]
  · intro hne
    cases e with
    | valueError => exact absurd rfl hne
    | other c => simp [calculate_iter, h]

theorem only_value_error_is_skipped_witness :
    math_sqrt ((⟨-1⟩ : Value).x) = .error .valueError
    ∧ calculate_iter math_sqrt "sqrt" [⟨-1⟩] =
        ⟨[], [diagMessage "sqrt" (-1)], none⟩ :=
  ⟨by decide,
    (only_value_error_is_skipped math_sqrt "sqrt" ⟨-1⟩ [] .valueError
      (by decide)).1 rfl⟩

/-- C10: the calculator is deterministic — two runs over the same input
list with the same configured function produce the same outputs, the
same diagnostics and the same termination behaviour. -/
theorem calculate_iter_deterministic (fn : MathFn) (expression : String)
    (values : List Value) (r₁ r₂ : CalcResult)
    (h₁ : r₁ = calculate_iter fn expression values)
    (h₂ : r₂ = calculate_iter fn expression values) :
    r₁.outputs = r₂.outputs ∧ r₁.diagnostics = r₂.diagnostics
    ∧ r₁.aborted = r₂.aborted := by
  subst h₁
  subst h₂
  exact ⟨rfl, rfl, rfl⟩

theorem calculate_iter_deterministic_witness :
    (calculate_iter math_sqrt "sqrt" [⟨4⟩, ⟨-1⟩]).outputs =
      (calculate_iter math_sqrt "sqrt" [⟨4⟩, ⟨-1⟩]).outputs
    ∧ (calculate_iter math_sqrt "sqrt" [⟨4⟩, ⟨-1⟩]).diagnostics =
      (calculate_iter math_sqrt "sqrt" [⟨4⟩, ⟨-1⟩]).diagnostics
    ∧ (calculate_iter math_sqrt "sqrt" [⟨4⟩, ⟨-1⟩]).aborted =
      (calculate_iter math_sqrt "sqrt" [⟨4⟩, ⟨-1⟩]).aborted :=
  calculate_iter_deterministic math_sqrt "sqrt" [⟨4⟩, ⟨-1⟩] _ _ rfl rfl


end ExternalProcessing
